import Mathlib

/-!
Shallow embedding of `sir.py` (epidemic modelling of a linear city).

Person states are the strings "S", "R", "V" and "I<d>" in the source; the
simulation functions only ever distinguish the tag and, for infected people,
the integer suffix, which we carry as a constructor field.  The substring
test `'I' in token` used throughout the source is `isInf` here; the suffix
read `int(token[1:])` is `infDays`.  Python list indexing `city[i]` for an
in-range `i` is `List.getD i Person.S`; theorems that depend on an index
carry the bound `i < city.length` as a hypothesis.  The global random source
(`random.seed` / `random.random`) is modelled as an abstract stream
`draws : Nat -> Rat` of the successive values returned by `random.random()`
after seeding, and a PRNG `prng : Int -> Nat -> Rat` maps each seed to its
stream.
-/

inductive Person where
  | S : Person
  | R : Person
  | V : Person
  | I : Nat → Person
deriving DecidableEq

/-- Models the substring test `'I' in token` of the source, which on the
state strings "S", "R", "V", "I<d>" holds exactly for infected people. -/
def isInf : Person → Bool
  | Person.I _ => true
  | _ => false

/-- Models `int(token[1:])`.  In the source this expression is evaluated
only under a guard `'I' in token`, so the value on non-infected states is
never used; we return 0 there. -/
def infDays : Person → Int
  | Person.I d => (d : Int)
  | _ => 0

/-- `has_an_infected_neighbor(city, position)`, sir.py lines 35-64,
including the duplicated explicit-False branches.  The source indexes
`city[len(city) - 2]`; for `len(city) = 1` Python resolves that to
`city[-1] = city[0]`, which coincides with the truncated-subtraction index
`city.length - 2 = 0` used here. -/
def has_an_infected_neighbor (city : List Person) (position : Nat) : Bool :=
  if position = 0 ∧ 1 < city.length ∧ isInf (city.getD 1 Person.S) = true then
    true
  else if position = 0 ∧ 1 < city.length ∧ ¬ isInf (city.getD 1 Person.S) = true then
    false
  else if position = city.length - 1 ∧ isInf (city.getD (city.length - 2) Person.S) = true then
    true
  else if position = city.length - 1 ∧ ¬ isInf (city.getD (city.length - 2) Person.S) = true then
    false
  else if 0 < position ∧ (isInf (city.getD (position - 1) Person.S) = true ∨
      isInf (city.getD (position + 1) Person.S) = true) then
    true
  else
    false

/-- `advance_person_at_position(city, position, days_contagious)`,
sir.py lines 67-89: the four-branch priority chain. -/
def advance_person_at_position (city : List Person) (position : Nat)
    (days_contagious : Int) : Person :=
  if isInf (city.getD position Person.S) = true ∧
      infDays (city.getD position Person.S) + 1 ≥ days_contagious then
    Person.R
  else if isInf (city.getD position Person.S) = true ∧
      infDays (city.getD position Person.S) + 1 < days_contagious then
    Person.I (infDays (city.getD position Person.S) + 1).toNat
  else if city.getD position Person.S = Person.S ∧
      has_an_infected_neighbor city position = true then
    Person.I 0
  else
    city.getD position Person.S

/-- The loop body of `simulate_one_day`: walks the starting city with the
position counter `i`, reading every transition from the unmodified
`starting_city`. -/
def simulate_one_day_go (starting_city : List Person) (days_contagious : Int) :
    List Person → Nat → List Person
  | [], _ => []
  | _ :: rest, i =>
      advance_person_at_position starting_city i days_contagious ::
        simulate_one_day_go starting_city days_contagious rest (i + 1)

/-- `simulate_one_day(starting_city, days_contagious)`, sir.py lines 92-111. -/
def simulate_one_day (starting_city : List Person) (days_contagious : Int) :
    List Person :=
  simulate_one_day_go starting_city days_contagious starting_city 0

/-- The loop body of `vaccinate_city`: `k` counts the `random.random()`
calls made so far; only positions holding exactly "S" draw and may turn
into "V". -/
def vaccinate_city_go (vaccine_effectiveness : Rat) (draws : Nat → Rat) :
    List Person → Nat → List Person
  | [], _ => []
  | p :: rest, k =>
      if p = Person.S then
        (if draws k < vaccine_effectiveness then Person.V else p) ::
          vaccinate_city_go vaccine_effectiveness draws rest (k + 1)
      else
        p :: vaccinate_city_go vaccine_effectiveness draws rest k

/-- `vaccinate_city(starting_city, vaccine_effectiveness)`, sir.py
lines 146-166, with the global random source passed explicitly. -/
def vaccinate_city (starting_city : List Person) (vaccine_effectiveness : Rat)
    (draws : Nat → Rat) : List Person :=
  vaccinate_city_go vaccine_effectiveness draws starting_city 0

/-- Models the loop guard `'I' not in ''.join(ending_city)` (negated):
the concatenation of the state strings contains the character I exactly
when some person is infected. -/
def has_infected (city : List Person) : Bool :=
  city.any isInf

/-- The day loop of `run_simulation`: `fuel` is the number of remaining
iterations of `for idx in range(len(starting_city) + days_contagious)` and
`duration` the days simulated so far. -/
def run_steps (days_contagious : Int) : Nat → List Person → Nat → List Person × Nat
  | 0, city, duration => (city, duration)
  | fuel + 1, city, duration =>
      if has_infected city = true then
        run_steps days_contagious fuel (simulate_one_day city days_contagious)
          (duration + 1)
      else
        (city, duration)

/-- `run_simulation(starting_city, days_contagious, random_seed,
vaccine_effectiveness)`, sir.py lines 114-142.  `range(n)` is empty for
`n <= 0`, hence the `Int.toNat` on the iteration count. -/
def run_simulation (starting_city : List Person) (days_contagious : Int)
    (draws : Nat → Rat) (vaccine_effectiveness : Rat) : List Person × Nat :=
  let ending_city := vaccinate_city starting_city vaccine_effectiveness draws
  run_steps days_contagious ((starting_city.length + days_contagious).toNat)
    ending_city 0

/-- The trial loop of `calc_avg_days_to_zero_infections`: builds
`duration_list`, incrementing the seed after every trial. -/
def calc_avg_go (starting_city : List Person) (days_contagious : Int)
    (vaccine_effectiveness : Rat) (prng : Int → Nat → Rat) :
    Nat → Int → List Nat
  | 0, _ => []
  | n + 1, random_seed =>
      (run_simulation starting_city days_contagious (prng random_seed)
          vaccine_effectiveness).2 ::
        calc_avg_go starting_city days_contagious vaccine_effectiveness prng n
          (random_seed + 1)

/-- `calc_avg_days_to_zero_infections(...)`, sir.py lines 169-202.
`assert num_trials > 0` is modelled by returning `none` when the trial
count is zero. -/
def calc_avg_days_to_zero_infections (starting_city : List Person)
    (days_contagious : Int) (random_seed : Int) (vaccine_effectiveness : Rat)
    (num_trials : Nat) (prng : Int → Nat → Rat) : Option Rat :=
  if num_trials = 0 then
    none
  else
    let duration_list := calc_avg_go starting_city days_contagious
      vaccine_effectiveness prng num_trials random_seed
    some ((duration_list.map (fun (d : Nat) => (d : Rat))).sum /
      (duration_list.length : Rat))

/-- Outcome of validating one comma-separated token in `cmd`
(sir.py lines 228-241): accepted, rejected with the parse-error message,
or an uncaught IndexError from `p[0]` / `p[1]` on a too-short token. -/
inductive TokenCheck where
  | accepted : TokenCheck
  | rejected : TokenCheck
  | index_error : TokenCheck
deriving DecidableEq

/-- The per-token validation of `cmd` on the character list of a token:
`if p[0] == "I": int(p[1]) or ValueError; elif p not in {"S", "R"}:
error`.  Note only the single character `p[1]` is converted; `int` on one
character succeeds exactly on a digit (we model the ASCII digits the CLI
supplies). -/
def validate_chars : List Char → TokenCheck
  | [] => TokenCheck.index_error
  | c :: rest =>
      if c = 'I' then
        match rest with
        | [] => TokenCheck.index_error
        | d :: _ => if d.isDigit then TokenCheck.accepted else TokenCheck.rejected
      else if c :: rest = ['S'] ∨ c :: rest = ['R'] then
        TokenCheck.accepted
      else
        TokenCheck.rejected

/-- Validation of one textual person-state token, as `cmd` performs it. -/
def validate_token (p : String) : TokenCheck :=
  validate_chars p.data

/-- Number of draws `vaccinate_city` has consumed before reaching
`position`: one per "S" among the earlier positions. -/
def countSBefore (city : List Person) (position : Nat) : Nat :=
  ((city.take position).filter (fun p => p = Person.S)).length

/-! ### Helper lemmas -/

lemma simulate_one_day_go_eq (starting_city : List Person) (days_contagious : Int)
    (l : List Person) (i : Nat) :
    simulate_one_day_go starting_city days_contagious l i =
      (List.range l.length).map
        (fun j => advance_person_at_position starting_city (i + j) days_contagious) := by
  induction l generalizing i with
  | nil => simp [simulate_one_day_go]
  | cons p rest ih =>
      rw [simulate_one_day_go, ih (i + 1), List.length_cons,
        List.range_succ_eq_map, List.map_cons, List.map_map]
      refine congrArg₂ List.cons (by rw [Nat.add_zero]) ?_
      refine List.map_congr_left (fun a _ => ?_)
      simp only [Function.comp_apply]
      congr 1
      omega

lemma simulate_one_day_eq_map (starting_city : List Person) (days_contagious : Int) :
    simulate_one_day starting_city days_contagious =
      (List.range starting_city.length).map
        (fun j => advance_person_at_position starting_city j days_contagious) := by
  rw [simulate_one_day, simulate_one_day_go_eq]
  refine List.map_congr_left (fun a _ => ?_)
  rw [Nat.zero_add]

lemma getD_map_range (f : Nat → Person) (n i : Nat) (h : i < n) :
    ((List.range n).map f).getD i Person.S = f i := by
  rw [List.getD_eq_getElem _ _ (by simpa using h)]
  simp

lemma map_getD_range_self (l : List Person) :
    (List.range l.length).map (fun i => l.getD i Person.S) = l := by
  induction l with
  | nil => simp
  | cons p rest ih =>
      rw [List.length_cons, List.range_succ_eq_map, List.map_cons, List.map_map]
      refine congrArg₂ List.cons rfl ?_
      calc (List.range rest.length).map ((fun i => (p :: rest).getD i Person.S) ∘ Nat.succ)
          = (List.range rest.length).map (fun i => rest.getD i Person.S) := by
            refine List.map_congr_left (fun a _ => ?_)
            simp [List.getD_cons_succ]
        _ = rest := ih

lemma advance_eq_cases (city : List Person) (position : Nat) (days_contagious : Int) :
    advance_person_at_position city position days_contagious =
      match city.getD position Person.S with
      | Person.I d =>
          if days_contagious ≤ (d : Int) + 1 then Person.R else Person.I (d + 1)
      | Person.S =>
          if has_an_infected_neighbor city position = true then Person.I 0
          else Person.S
      | p => p := by
  simp only [advance_person_at_position]
  generalize city.getD position Person.S = p
  cases p with
  | S => simp [isInf]
  | R => simp [isInf]
  | V => simp [isInf]
  | I d =>
      simp only [isInf, infDays]
      by_cases hge : days_contagious ≤ (d : Int) + 1
      · rw [if_pos ⟨trivial, hge⟩, if_pos hge]
      · rw [if_neg (fun hc => hge hc.2), if_pos ⟨trivial, not_le.mp hge⟩, if_neg hge]
        exact congrArg Person.I (by omega)

lemma run_steps_snd_le (days_contagious : Int) (fuel : Nat) :
    ∀ (city : List Person) (duration : Nat),
      (run_steps days_contagious fuel city duration).2 ≤ duration + fuel := by
  induction fuel with
  | zero => intro city duration; simp [run_steps]
  | succ n ih =>
      intro city duration
      rw [run_steps]
      split
      · exact le_trans (ih _ _) (by omega)
      · simp

lemma vaccinate_city_go_zero (draws : Nat → Rat) (h : ∀ k, 0 ≤ draws k)
    (l : List Person) (k : Nat) : vaccinate_city_go 0 draws l k = l := by
  induction l generalizing k with
  | nil => rfl
  | cons p rest ih =>
      rw [vaccinate_city_go]
      split
      · rw [if_neg (not_lt.mpr (h k)), ih]
      · rw [ih]

lemma vaccinate_city_zero (starting_city : List Person) (draws : Nat → Rat)
    (h : ∀ k, 0 ≤ draws k) : vaccinate_city starting_city 0 draws = starting_city :=
  vaccinate_city_go_zero draws h starting_city 0

/-! ### Claim theorems -/

/-- Claim C1, counterexample: on the code, the second day-advance of the
scenario maps the snapshot I0, I1, I0 to I1, R, I1 (position 0 has
day count 0, and 0 + 1 < 2), not to all-R, and the run takes 3 days,
not 2. -/
theorem three_person_scenario_claim_false :
    simulate_one_day [Person.I 0, Person.I 1, Person.I 0] 2 ≠
      [Person.R, Person.R, Person.R] ∧
    run_simulation [Person.S, Person.I 0, Person.S] 2 (fun _ => 0) 0 ≠
      ([Person.R, Person.R, Person.R], 2) := by
  decide

/-- Claim C1 (amended): with days_contagious = 2 and vaccine
effectiveness 0, the snapshot S, I0, S evolves to I0, I1, I0 after
day 1, to I1, R, I1 after day 2, to R, R, R after day 3, and
run_simulation returns days_elapsed = 3. -/
theorem three_person_scenario (draws : Nat → Rat) (h : ∀ k, 0 ≤ draws k) :
    simulate_one_day [Person.S, Person.I 0, Person.S] 2 =
      [Person.I 0, Person.I 1, Person.I 0] ∧
    simulate_one_day [Person.I 0, Person.I 1, Person.I 0] 2 =
      [Person.I 1, Person.R, Person.I 1] ∧
    simulate_one_day [Person.I 1, Person.R, Person.I 1] 2 =
      [Person.R, Person.R, Person.R] ∧
    run_simulation [Person.S, Person.I 0, Person.S] 2 draws 0 =
      ([Person.R, Person.R, Person.R], 3) := by
  refine ⟨by decide, by decide, by decide, ?_⟩
  have hv : vaccinate_city [Person.S, Person.I 0, Person.S] 0 draws =
      [Person.S, Person.I 0, Person.S] := vaccinate_city_zero _ _ h
  simp only [run_simulation, hv]
  decide

/-- Claim C1, witness: the amended scenario at the all-zero draw stream. -/
theorem three_person_scenario_witness :
    run_simulation [Person.S, Person.I 0, Person.S] 2 (fun _ => 0) 0 =
      ([Person.R, Person.R, Person.R], 3) :=
  (three_person_scenario (fun _ => 0) (fun _ => le_refl 0)).2.2.2

/-- Claim C3, counterexample: for starting city I0 and
days_contagious = -2 the loop bound len + days_contagious is -1, the
loop body never runs, and run_simulation returns days_elapsed = 0,
which exceeds the claimed bound N + days_contagious = -1. -/
theorem run_simulation_bound_claim_false :
    ¬ (((run_simulation [Person.I 0] (-2) (fun _ => 0) 0).2 : Int) ≤
        (([Person.I 0] : List Person).length : Int) + (-2)) := by
  decide

/-- Claim C3 (amended): run_simulation always terminates (it is a total
function) and returns days_elapsed at most max (N + days_contagious) 0,
where N is the initial population size; when the loop bound is reached
with infection still present the state and day count reached at that
point are returned.  For every days_contagious with
N + days_contagious >= 0 — in particular all positive values — this is
the claimed bound N + days_contagious. -/
theorem run_simulation_bound (starting_city : List Person) (days_contagious : Int)
    (draws : Nat → Rat) (vaccine_effectiveness : Rat) :
    ((run_simulation starting_city days_contagious draws vaccine_effectiveness).2 : Int) ≤
      max ((starting_city.length : Int) + days_contagious) 0 := by
  have h := run_steps_snd_le days_contagious
    ((starting_city.length + days_contagious).toNat)
    (vaccinate_city starting_city vaccine_effectiveness draws) 0
  simp only [run_simulation]
  rw [← Int.toNat_eq_max]
  exact_mod_cast (by simpa using h)

/-- Claim C4: run_simulation is deterministic — it depends on the seeded
random source only through the values of the draw stream, so two calls
with identical arguments (hence pointwise-identical draw streams, as
random.seed resets the generator) yield an identical final snapshot and
identical days_elapsed. -/
theorem run_simulation_deterministic (starting_city : List Person)
    (days_contagious : Int) (vaccine_effectiveness : Rat)
    (draws1 draws2 : Nat → Rat) (h : ∀ n, draws1 n = draws2 n) :
    run_simulation starting_city days_contagious draws1 vaccine_effectiveness =
      run_simulation starting_city days_contagious draws2 vaccine_effectiveness := by
  rw [funext h]

/-- Claim C4, witness: two syntactically different but pointwise-equal
draw streams give the same run. -/
theorem run_simulation_deterministic_witness :
    run_simulation [Person.S, Person.I 0] 2 (fun _ => 0) (1 / 2) =
      run_simulation [Person.S, Person.I 0] 2 (fun k => 0 * (k : Rat)) (1 / 2) :=
  run_simulation_deterministic _ _ _ _ _ (fun n => by norm_num)

/-- Claim C6: simulate_one_day returns a new snapshot of the same length
whose entry at every position is advance_person_at_position applied to
the unmodified input snapshot, and the per-person rule is, in priority
order: Infected d with d + 1 >= days_contagious becomes Recovered;
Infected d otherwise becomes Infected (d + 1); Susceptible with an
infected neighbor becomes Infected 0; otherwise the state is
unchanged. -/
theorem simulate_one_day_spec (city : List Person) (days_contagious : Int) :
    (simulate_one_day city days_contagious).length = city.length ∧
    (∀ position, position < city.length →
      (simulate_one_day city days_contagious).getD position Person.S =
        advance_person_at_position city position days_contagious) ∧
    (∀ position d, city.getD position Person.S = Person.I d →
      days_contagious ≤ (d : Int) + 1 →
      advance_person_at_position city position days_contagious = Person.R) ∧
    (∀ position d, city.getD position Person.S = Person.I d →
      (d : Int) + 1 < days_contagious →
      advance_person_at_position city position days_contagious = Person.I (d + 1)) ∧
    (∀ position, city.getD position Person.S = Person.S →
      advance_person_at_position city position days_contagious =
        (if has_an_infected_neighbor city position = true then Person.I 0
          else Person.S)) ∧
    (∀ position, city.getD position Person.S = Person.R →
      advance_person_at_position city position days_contagious = Person.R) ∧
    (∀ position, city.getD position Person.S = Person.V →
      advance_person_at_position city position days_contagious = Person.V) := by
  refine ⟨?_, ?_, ?_, ?_, ?_, ?_, ?_⟩
  · rw [simulate_one_day_eq_map]
    simp
  · intro position h
    rw [simulate_one_day_eq_map]
    exact getD_map_range _ _ _ h
  · intro position d hI hge
    rw [advance_eq_cases, hI]
    exact if_pos hge
  · intro position d hI hlt
    rw [advance_eq_cases, hI]
    exact if_neg (not_le.mpr hlt)
  · intro position hS
    rw [advance_eq_cases, hS]
  · intro position hR
    rw [advance_eq_cases, hR]
  · intro position hV
    rw [advance_eq_cases, hV]

/-- Claim C6, witness: the pointwise description of simulate_one_day at a
concrete snapshot and position. -/
theorem simulate_one_day_spec_witness :
    (simulate_one_day [Person.S, Person.I 0] 2).getD 0 Person.S =
      advance_person_at_position [Person.S, Person.I 0] 0 2 :=
  (simulate_one_day_spec [Person.S, Person.I 0] 2).2.1 0 (by decide)

lemma no_infected_neighbor_of_none (city : List Person)
    (h : ∀ p ∈ city, isInf p = false) (position : Nat) :
    has_an_infected_neighbor city position = false := by
  have key : ∀ j, isInf (city.getD j Person.S) = false := by
    intro j
    by_cases hj : j < city.length
    · rw [List.getD_eq_getElem _ _ hj]
      exact h _ (List.getElem_mem _)
    · rw [List.getD_eq_default _ _ (by omega)]
      rfl
  simp only [has_an_infected_neighbor, key]
  simp

/-- Claim C9: a snapshot with no Infected person (every state is
Susceptible, Recovered, or Vaccinated) is a fixed point of
simulate_one_day. -/
theorem simulate_one_day_fixed_point (city : List Person) (days_contagious : Int)
    (h : ∀ p ∈ city, isInf p = false) :
    simulate_one_day city days_contagious = city := by
  rw [simulate_one_day_eq_map]
  have hadv : ∀ j, j < city.length →
      advance_person_at_position city j days_contagious = city.getD j Person.S := by
    intro j hj
    have hj2 : isInf (city.getD j Person.S) = false := by
      rw [List.getD_eq_getElem _ _ hj]
      exact h _ (List.getElem_mem _)
    have hn := no_infected_neighbor_of_none city h j
    rcases hp : city.getD j Person.S with _ | _ | _ | d
    · rw [advance_eq_cases, hp]
      simp [hn]
    · rw [advance_eq_cases, hp]
    · rw [advance_eq_cases, hp]
    · rw [hp] at hj2
      simp [isInf] at hj2
  calc (List.range city.length).map
        (fun j => advance_person_at_position city j days_contagious)
      = (List.range city.length).map (fun j => city.getD j Person.S) :=
        List.map_congr_left (fun a ha => hadv a (by simpa using ha))
    _ = city := map_getD_range_self city

/-- Claim C9, witness: a mixed Susceptible, Recovered, Vaccinated
snapshot is unchanged by a day-advance. -/
theorem simulate_one_day_fixed_point_witness :
    simulate_one_day [Person.S, Person.R, Person.V] 5 =
      [Person.S, Person.R, Person.V] :=
  simulate_one_day_fixed_point _ _ (by decide)

/-- Claim C7: under the precondition that the person at the position is
Susceptible, has_an_infected_neighbor is true exactly when an adjacent
in-bounds position holds an Infected state; in particular for a
population of size 1 the result is false. -/
theorem has_an_infected_neighbor_spec (city : List Person) (position : Nat)
    (hlen : position < city.length)
    (hS : city.getD position Person.S = Person.S) :
    (has_an_infected_neighbor city position = true ↔
      (1 ≤ position ∧ isInf (city.getD (position - 1) Person.S) = true) ∨
      (position + 1 < city.length ∧
        isInf (city.getD (position + 1) Person.S) = true)) ∧
    (city.length = 1 → has_an_infected_neighbor city position = false) := by
  have hlenone : position = 0 →
      ¬ (position = 0 ∧ 1 < city.length ∧ isInf (city.getD 1 Person.S) = true) →
      ¬ (position = 0 ∧ 1 < city.length ∧ ¬ isInf (city.getD 1 Person.S) = true) →
      city.length = 1 := by
    intro hh hn1 hn2
    by_cases hl : 1 < city.length
    · by_cases hi : isInf (city.getD 1 Person.S) = true
      · exact absurd ⟨hh, hl, hi⟩ hn1
      · exact absurd ⟨hh, hl, hi⟩ hn2
    · omega
  have main : has_an_infected_neighbor city position = true ↔
      (1 ≤ position ∧ isInf (city.getD (position - 1) Person.S) = true) ∨
      (position + 1 < city.length ∧
        isInf (city.getD (position + 1) Person.S) = true) := by
    unfold has_an_infected_neighbor
    split_ifs with h1 h2 h3 h4 h5
    · obtain ⟨hp, hl, hi⟩ := h1
      subst hp
      exact iff_of_true rfl (Or.inr ⟨by omega, hi⟩)
    · obtain ⟨hp, hl, hi⟩ := h2
      subst hp
      refine iff_of_false (by simp) ?_
      rintro (⟨ha, _⟩ | ⟨_, hb⟩)
      · omega
      · exact hi hb
    · by_cases hp : position = 0
      · exfalso
        have hl1 := hlenone hp h1 h2
        subst hp
        obtain ⟨-, h3i⟩ := h3
        have hidx : city.length - 2 = 0 := by omega
        rw [hidx, hS] at h3i
        simp [isInf] at h3i
      · obtain ⟨hpl, hi⟩ := h3
        have hp1 : 1 ≤ position := Nat.one_le_iff_ne_zero.mpr hp
        have hidx : city.length - 2 = position - 1 := by omega
        rw [hidx] at hi
        exact iff_of_true rfl (Or.inl ⟨hp1, hi⟩)
    · obtain ⟨hpl, hi⟩ := h4
      by_cases hp : position = 0
      · have hl1 := hlenone hp h1 h2
        subst hp
        refine iff_of_false (by simp) ?_
        rintro (⟨ha, _⟩ | ⟨hb, _⟩)
        · omega
        · omega
      · have hp1 : 1 ≤ position := Nat.one_le_iff_ne_zero.mpr hp
        have hidx : city.length - 2 = position - 1 := by omega
        rw [hidx] at hi
        refine iff_of_false (by simp) ?_
        rintro (⟨-, hb⟩ | ⟨hc, -⟩)
        · exact hi hb
        · omega
    · obtain ⟨hp0, hor⟩ := h5
      have hne : position ≠ city.length - 1 := by
        intro hpe
        by_cases hi : isInf (city.getD (city.length - 2) Person.S) = true
        · exact h3 ⟨hpe, hi⟩
        · exact h4 ⟨hpe, hi⟩
      have hlt : position + 1 < city.length := by omega
      rcases hor with hi | hi
      · exact iff_of_true rfl (Or.inl ⟨by omega, hi⟩)
      · exact iff_of_true rfl (Or.inr ⟨hlt, hi⟩)
    · by_cases hp : position = 0
      · have hl1 := hlenone hp h1 h2
        subst hp
        refine iff_of_false (by simp) ?_
        rintro (⟨ha, _⟩ | ⟨hb, _⟩)
        · omega
        · omega
      · have hp1 : 0 < position := Nat.pos_of_ne_zero hp
        have hni : ¬ (isInf (city.getD (position - 1) Person.S) = true ∨
            isInf (city.getD (position + 1) Person.S) = true) :=
          fun hor => h5 ⟨hp1, hor⟩
        push_neg at hni
        refine iff_of_false (by simp) ?_
        rintro (⟨-, hb⟩ | ⟨-, hd⟩)
        · exact hni.1 hb
        · exact hni.2 hd
  refine ⟨main, fun hlen1 => ?_⟩
  have hpos : position = 0 := by omega
  subst hpos
  cases hres : has_an_infected_neighbor city 0 with
  | false => rfl
  | true =>
      rcases main.mp hres with ⟨ha, _⟩ | ⟨hb, _⟩
      · omega
      · omega

/-- Claim C7, witness: the first person of S, I0 is Susceptible, in
range, and has an infected neighbor at index 1. -/
theorem has_an_infected_neighbor_spec_witness :
    has_an_infected_neighbor [Person.S, Person.I 0] 0 = true := by
  have h := (has_an_infected_neighbor_spec [Person.S, Person.I 0] 0
    (by decide) (by decide)).1
  exact h.mpr (Or.inr (by decide))

/-- Claim C10: for non-positive days_contagious every infected person
advances to Recovered in one step (the day count plus one always reaches
a non-positive threshold), a day-advance clears that position, and
run_simulation still terminates, within at most N days. -/
theorem advance_nonpositive_contagion (city : List Person) (position d : Nat)
    (days_contagious : Int) (hdc : days_contagious ≤ 0)
    (hI : city.getD position Person.S = Person.I d) :
    advance_person_at_position city position days_contagious = Person.R ∧
    (position < city.length →
      (simulate_one_day city days_contagious).getD position Person.S = Person.R) ∧
    (∀ draws vaccine_effectiveness,
      ((run_simulation city days_contagious draws vaccine_effectiveness).2 : Int) ≤
        (city.length : Int)) := by
  have hadv : advance_person_at_position city position days_contagious = Person.R := by
    rw [advance_eq_cases, hI]
    exact if_pos (by omega)
  refine ⟨hadv, ?_, ?_⟩
  · intro hpos
    rw [simulate_one_day_eq_map, getD_map_range _ _ _ hpos]
    exact hadv
  · intro draws vaccine_effectiveness
    have h := run_steps_snd_le days_contagious
      ((city.length + days_contagious).toNat)
      (vaccinate_city city vaccine_effectiveness draws) 0
    simp only [run_simulation]
    omega

/-- Claim C10, witness: a single infected person with
days_contagious = -1 recovers in one step. -/
theorem advance_nonpositive_contagion_witness :
    advance_person_at_position [Person.I 0] 0 (-1) = Person.R :=
  (advance_nonpositive_contagion [Person.I 0] 0 0 (-1) (by norm_num) (by decide)).1

lemma vaccinate_city_go_length (vaccine_effectiveness : Rat) (draws : Nat → Rat)
    (l : List Person) (k : Nat) :
    (vaccinate_city_go vaccine_effectiveness draws l k).length = l.length := by
  induction l generalizing k with
  | nil => rfl
  | cons p rest ih =>
      rw [vaccinate_city_go]
      split
      · simp [ih]
      · simp [ih]

lemma countSBefore_zero (l : List Person) : countSBefore l 0 = 0 := by
  simp [countSBefore]

lemma countSBefore_cons_succ (p : Person) (rest : List Person) (position : Nat) :
    countSBefore (p :: rest) (position + 1) =
      (if p = Person.S then 1 else 0) + countSBefore rest position := by
  by_cases hp : p = Person.S
  · simp [countSBefore, List.take_succ_cons, List.filter_cons, hp]
    omega
  · simp [countSBefore, List.take_succ_cons, List.filter_cons, hp]

lemma vaccinate_city_go_getD (vaccine_effectiveness : Rat) (draws : Nat → Rat)
    (l : List Person) (k position : Nat) (h : position < l.length) :
    (vaccinate_city_go vaccine_effectiveness draws l k).getD position Person.S =
      if l.getD position Person.S = Person.S then
        (if draws (k + countSBefore l position) < vaccine_effectiveness
          then Person.V else Person.S)
      else l.getD position Person.S := by
  induction l generalizing k position with
  | nil => simp at h
  | cons p rest ih =>
      cases position with
      | zero =>
          rw [vaccinate_city_go]
          by_cases hp : p = Person.S
          · rw [if_pos hp]
            simp [List.getD_cons_zero, hp, countSBefore_zero]
          · rw [if_neg hp]
            simp [List.getD_cons_zero, hp]
      | succ n =>
          have hn : n < rest.length := by simpa using h
          rw [vaccinate_city_go]
          by_cases hp : p = Person.S
          · rw [if_pos hp]
            simp only [List.getD_cons_succ]
            rw [ih (k + 1) n hn, countSBefore_cons_succ, if_pos hp]
            have hk : k + 1 + countSBefore rest n = k + (1 + countSBefore rest n) := by
              omega
            rw [hk]
          · rw [if_neg hp]
            simp only [List.getD_cons_succ]
            rw [ih k n hn, countSBefore_cons_succ, if_neg hp]
            rw [Nat.zero_add]

/-- Claim C8: vaccinate_city keeps the length; the person at each
position becomes Vaccinated exactly when that position is Susceptible
and its own draw — the one whose index counts the susceptible people
before it, so non-susceptible positions consume no draw — is strictly
below the effectiveness; with effectiveness 0 and draws in [0,1) the
result equals the input snapshot (which, being a value, is never
mutated). -/
theorem vaccinate_city_spec (starting_city : List Person)
    (vaccine_effectiveness : Rat) (draws : Nat → Rat) :
    (vaccinate_city starting_city vaccine_effectiveness draws).length =
      starting_city.length ∧
    (∀ position, position < starting_city.length →
      (vaccinate_city starting_city vaccine_effectiveness draws).getD position
          Person.S =
        if starting_city.getD position Person.S = Person.S then
          (if draws (countSBefore starting_city position) < vaccine_effectiveness
            then Person.V else Person.S)
        else starting_city.getD position Person.S) ∧
    ((∀ k, 0 ≤ draws k) → vaccinate_city starting_city 0 draws = starting_city) := by
  refine ⟨vaccinate_city_go_length _ _ _ _, ?_, fun h => vaccinate_city_zero _ _ h⟩
  intro position h
  have hg := vaccinate_city_go_getD vaccine_effectiveness draws starting_city 0
    position h
  rw [Nat.zero_add] at hg
  exact hg

/-- Claim C8, witness: with effectiveness 1 the leading Susceptible
person of S, R is converted to Vaccinated by its draw. -/
theorem vaccinate_city_spec_witness :
    (vaccinate_city [Person.S, Person.R] 1 (fun _ => 0)).getD 0 Person.S =
      Person.V := by
  have h := (vaccinate_city_spec [Person.S, Person.R] 1 (fun _ => 0)).2.1 0
    (by decide)
  rw [h]
  decide

lemma calc_avg_go_eq (starting_city : List Person) (days_contagious : Int)
    (vaccine_effectiveness : Rat) (prng : Int → Nat → Rat)
    (num_trials : Nat) (random_seed : Int) :
    calc_avg_go starting_city days_contagious vaccine_effectiveness prng
        num_trials random_seed =
      (List.range num_trials).map (fun (i : Nat) =>
        (run_simulation starting_city days_contagious
          (prng (random_seed + (i : Int))) vaccine_effectiveness).2) := by
  induction num_trials generalizing random_seed with
  | zero => rfl
  | succ n ih =>
      rw [calc_avg_go, ih, List.range_succ_eq_map, List.map_cons, List.map_map]
      refine congrArg₂ List.cons ?_ ?_
      · norm_num
      · refine List.map_congr_left (fun a _ => ?_)
        simp only [Function.comp_apply]
        have hs : random_seed + 1 + (a : Int) = random_seed + ((a + 1 : Nat) : Int) := by
          push_cast
          ring
        rw [hs]

/-- Claim C5: under the precondition num_trials > 0 (its violation is the
assertion failure, modelled as none), calc_avg_days_to_zero_infections
runs the simulation exactly num_trials times, each from the same initial
snapshot, with seeds random_seed, random_seed + 1, …,
random_seed + num_trials - 1 in order, and returns the arithmetic mean
of the resulting days_elapsed values. -/
theorem calc_avg_days_spec (starting_city : List Person) (days_contagious : Int)
    (random_seed : Int) (vaccine_effectiveness : Rat) (num_trials : Nat)
    (prng : Int → Nat → Rat) (h : 0 < num_trials) :
    calc_avg_days_to_zero_infections starting_city days_contagious random_seed
        vaccine_effectiveness num_trials prng =
      some ((((List.range num_trials).map (fun (i : Nat) =>
          ((run_simulation starting_city days_contagious
            (prng (random_seed + (i : Int))) vaccine_effectiveness).2 : Rat))).sum) /
        (num_trials : Rat)) := by
  simp only [calc_avg_days_to_zero_infections]
  rw [if_neg (by omega), calc_avg_go_eq, List.map_map, List.length_map,
    List.length_range]
  rfl

/-- Claim C5, witness: two trials of a one-person infected city with
days_contagious = 1 each last one day, so the average is 1. -/
theorem calc_avg_days_spec_witness :
    calc_avg_days_to_zero_infections [Person.I 0] 1 7 0 2 (fun _ _ => 0) =
      some 1 := by
  rw [calc_avg_days_spec [Person.I 0] 1 7 0 2 (fun _ _ => 0) (by norm_num)]
  have h1 : (run_simulation [Person.I 0] 1 (fun _ => (0 : Rat)) 0).2 = 1 := by
    decide
  simp [List.range_succ, h1]

lemma validate_chars_accepted_iff (l : List Char) :
    validate_chars l = TokenCheck.accepted ↔
      l = ['S'] ∨ l = ['R'] ∨
      ∃ c rest, l = 'I' :: c :: rest ∧ c.isDigit = true := by
  cases l with
  | nil => simp [validate_chars]
  | cons c rest =>
      simp only [validate_chars]
      by_cases hc : c = 'I'
      · subst hc
        rw [if_pos rfl]
        cases rest with
        | nil =>
            refine iff_of_false (by simp) ?_
            rintro (h | h | ⟨c2, r2, heq, -⟩)
            · simp at h
            · simp at h
            · simp at heq
        | cons d ds =>
            by_cases hd : d.isDigit = true
            · exact iff_of_true (by simp [hd])
                (Or.inr (Or.inr ⟨d, ds, rfl, hd⟩))
            · refine iff_of_false (by simp [hd]) ?_
              rintro (h | h | ⟨c2, r2, heq, hdig⟩)
              · simp at h
              · simp at h
              · injection heq with h1 h2
                injection h2 with h3 h4
                subst h3
                exact hd hdig
      · rw [if_neg hc]
        by_cases hs : (c :: rest = ['S'] ∨ c :: rest = ['R'])
        · rw [if_pos hs]
          exact iff_of_true rfl (hs.elim Or.inl (fun h2 => Or.inr (Or.inl h2)))
        · rw [if_neg hs]
          refine iff_of_false (by simp) ?_
          rintro (h | h | ⟨c2, r2, heq, -⟩)
          · exact hs (Or.inl h)
          · exact hs (Or.inr h)
          · injection heq with h1 h2
            exact hc h1

lemma validate_chars_index_error_iff (l : List Char) :
    validate_chars l = TokenCheck.index_error ↔ l = [] ∨ l = ['I'] := by
  cases l with
  | nil => simp [validate_chars]
  | cons c rest =>
      simp only [validate_chars]
      by_cases hc : c = 'I'
      · subst hc
        rw [if_pos rfl]
        cases rest with
        | nil => simp
        | cons d ds =>
            by_cases hd : d.isDigit = true
            · refine iff_of_false (by simp [hd]) (by simp)
            · refine iff_of_false (by simp [hd]) (by simp)
      · rw [if_neg hc]
        by_cases hs : (c :: rest = ['S'] ∨ c :: rest = ['R'])
        · rw [if_pos hs]
          refine iff_of_false (by simp) ?_
          rintro (h | h)
          · simp at h
          · injection h with h1 h2
            exact hc h1
        · rw [if_neg hs]
          refine iff_of_false (by simp) ?_
          rintro (h | h)
          · simp at h
          · injection h with h1 h2
            exact hc h1

/-- Claim C2, counterexample: the validation in cmd rejects the token V
with the parse error, and accepts the token I1x — whose suffix 1x is not
a valid non-negative integer — because only the single character p at
index 1 is converted. -/
theorem validate_token_claim_false :
    validate_token "V" = TokenCheck.rejected ∧
    validate_token "I1x" = TokenCheck.accepted := by
  decide

/-- Claim C2 (amended): the validation in cmd accepts exactly the tokens
S, R, and any token whose first character is I and whose second
character is a decimal digit (so I1x is accepted and V is rejected with
the parse error); the empty token and the bare token I escape the
ValueError handler and raise an uncaught IndexError instead of the
parse error. -/
theorem validate_token_characterization (p : String) :
    (validate_token p = TokenCheck.accepted ↔
      p.data = ['S'] ∨ p.data = ['R'] ∨
      ∃ c rest, p.data = 'I' :: c :: rest ∧ c.isDigit = true) ∧
    (validate_token p = TokenCheck.index_error ↔
      p.data = [] ∨ p.data = ['I']) :=
  ⟨validate_chars_accepted_iff p.data, validate_chars_index_error_iff p.data⟩
